import Mathlib

/-!
Verification of the Deshi Knowledge Collector repository (src/app.py and
src/console_bot.py) against its natural-language specification.

The embedding is shallow: the Slack event payload is modelled as a record of
optional JSON values (a key can be missing, or present with the JSON value
`null`, or present with a string, exactly the cases `dict.get` distinguishes
or collapses in Python); the Supabase client is modelled as a function from
the single insert call the handler makes to the response the library would
return (row data, an error object, or a raised exception); the two
`handle_message_events` callbacks are modelled as pure functions from the
event and the store behaviour to the list of insert calls issued, the logger
lines emitted, and the writes made to the Streamlit capture buffer.
-/

/-- A JSON value as it can occur for a field of a Slack event payload.
Only `null` and strings occur for the five fields this program reads. -/
inductive JVal where
  | null
  | str (s : String)
deriving DecidableEq

/-- The event payload as seen through `event.get`: every field of a Python
dict is either missing (`none`), present with JSON null (`some .null`), or
present with a string. Fields: `subtype`, `user`, `text`, `channel`, `ts`
(src/app.py lines 71-76, src/console_bot.py lines 48-53). -/
structure SlackEvent where
  subtype : Option JVal
  user : Option JVal
  text : Option JVal
  channel : Option JVal
  ts : Option JVal
deriving DecidableEq

/-- Python `event.get(key)`: a missing key and a key holding JSON null both
come back as Python `None`, modelled as `none`; a string value comes back as
that string. -/
def getStr : Option JVal → Option String
  | none => none
  | some JVal.null => none
  | some (JVal.str s) => some s

/-- Python truthiness of an optional string: `None` and `""` are falsy,
every other string is truthy (the `and message_text` test on line 76 of
src/app.py / line 53 of src/console_bot.py). -/
def pyTruthy : Option String → Bool
  | none => false
  | some s => s != ""

/-- How Python renders an optional string inside an f-string:
`None` prints as "None", a string prints as itself. -/
def pyShow : Option String → String
  | none => "None"
  | some s => s

/-- Python string slicing `s[:n]`, as used for the log-line truncation
(`message_text[:50]` in src/app.py line 77, `[:70]` in src/console_bot.py
line 54). -/
def pyTake (n : Nat) (s : String) : String :=
  String.mk (s.data.take n)

/-- Python `str.lower`, restricted to the ASCII case mapping
(`str(response.error.message).lower()` in src/app.py line 98,
src/console_bot.py line 67). -/
def pyLower (s : String) : String :=
  String.mk (s.data.map Char.toLower)

/-- Does `needle` occur as a contiguous sublist at the head of `hay`? -/
def startsList (needle hay : List Char) : Bool :=
  match needle, hay with
  | [], _ => true
  | _ :: _, [] => false
  | a :: as, b :: bs => a == b && startsList as bs

/-- Does `needle` occur as a contiguous sublist anywhere in `hay`? -/
def subOccurs (needle hay : List Char) : Bool :=
  match hay with
  | [] => needle.isEmpty
  | _ :: t => startsList needle hay || subOccurs needle t

/-- Python `needle in hay` on strings: contiguous-substring containment. -/
def strContains (hay needle : String) : Bool :=
  subOccurs needle.data hay.data

/-- The row dict built by both handlers for the Supabase insert
(src/app.py lines 82-87, src/console_bot.py lines 56-61). Each value comes
out of `event.get`, so it can in principle be Python `None`. -/
structure Row where
  slack_user_id : Option String
  slack_channel_id : Option String
  message_content : Option String
  slack_message_ts : Option String
deriving DecidableEq

/-- One insert call issued to the store: the table it targets and the row
passed to `.insert(...)`. -/
structure InsertCall where
  table : String
  row : Row
deriving DecidableEq

/-- The error object a Supabase response can carry; the handlers read its
`message` attribute and render it (modelled: `str(error)` is its message). -/
structure SupabaseError where
  message : String
deriving DecidableEq

/-- What `supabase.table(t).insert(row).execute()` can do, as far as the
handlers can observe it: return a response with a (possibly empty) data list
of created-row ids and an optional error object, or raise an exception. -/
inductive StoreResponse where
  | result (d : List Nat) (err : Option SupabaseError)
  | raise (m : String)
deriving DecidableEq

/-- A line emitted through the `logging` logger, tagged with its level. -/
inductive LogLine where
  | info (s : String)
  | warning (s : String)
  | error (s : String)
deriving DecidableEq

/-- Is a log line at error level? -/
def isErrorLog : LogLine → Bool
  | .error _ => true
  | _ => false

/-- Everything one invocation of a message callback observably does:
the insert calls it issues, the logger lines it emits, and the strings it
writes to the Streamlit capture buffer (always empty for the CLI host).
The callback catches every storage exception (the `except` clause), so an
invocation always returns; there is no raised-exception outcome. -/
structure HandlerOutput where
  calls : List InsertCall
  logs : List LogLine
  buffer : List String
deriving DecidableEq

/-- The relevance test both handlers apply, verbatim from
`if event.get("subtype") is None and event_user_id == target_slack_user_id
and message_text:` (src/app.py line 76, src/console_bot.py line 53). -/
def isRelevant (target_slack_user_id : String) (event : SlackEvent) : Bool :=
  (getStr event.subtype).isNone && (getStr event.user == some target_slack_user_id) &&
    pyTruthy (getStr event.text)

/-- The row both handlers build from an event (src/app.py lines 82-87,
src/console_bot.py lines 56-61). -/
def rowOf (event : SlackEvent) : Row :=
  { slack_user_id := getStr event.user
    slack_channel_id := getStr event.channel
    message_content := getStr event.text
    slack_message_ts := getStr event.ts }

/-- The duplicate test: `response.error and "violates unique constraint" in
str(response.error.message).lower()` (src/app.py line 98,
src/console_bot.py line 67). -/
def isUniqueViolation : Option SupabaseError → Bool
  | some er => strContains (pyLower er.message) "violates unique constraint"
  | none => false

namespace App

/-- Shallow embedding of the `message` callback of the interactive host
(src/app.py lines 70-105). Irrelevant events fall through to the final
`else`: nothing is inserted, logged, or written. For a relevant event the
received-message line is logged (text truncated to 50 characters), the row
is built and one insert issued; the three response shapes map to the three
`match` arms: raised exception caught and logged at error level, returned
data logged at info level, and no data logged at warning level with an
extra duplicate warning when the error message indicates a unique-constraint
violation. -/
def handle_message_events (target_slack_user_id supabase_table_name : String)
    (store : InsertCall → StoreResponse) (event : SlackEvent) : HandlerOutput :=
  let event_user_id := getStr event.user
  let message_text := getStr event.text
  let channel_id := getStr event.channel
  let message_ts := getStr event.ts
  if isRelevant target_slack_user_id event then
    let log_msg := "Received message from target user (" ++ pyShow event_user_id ++
      ") in channel (" ++ pyShow channel_id ++ "): \x27" ++
      pyTake 50 (message_text.getD "") ++ "...\x27"
    let data_to_insert : Row :=
      { slack_user_id := event_user_id
        slack_channel_id := channel_id
        message_content := message_text
        slack_message_ts := message_ts }
    let call : InsertCall := { table := supabase_table_name, row := data_to_insert }
    match store call with
    | .raise m =>
      let err_msg := "Error storing message in Supabase: " ++ m
      { calls := [call]
        logs := [.info log_msg, .error err_msg]
        buffer := [log_msg ++ "\n", "ERROR: " ++ err_msg ++ "\n"] }
    | .result d err =>
      match d with
      | id :: _ =>
        let ok_msg := "Message successfully stored in Supabase. ID: " ++ toString id
        { calls := [call]
          logs := [.info log_msg, .info ok_msg]
          buffer := [log_msg ++ "\n", ok_msg ++ "\n"] }
      | [] =>
        let err_str := match err with
          | some er => er.message
          | none => "No error info"
        let warn1 := "Supabase insert did not return data: " ++ err_str
        if isUniqueViolation err then
          let warn2 := "Duplicate message (slack_message_ts: " ++ pyShow message_ts ++
            ") not inserted."
          { calls := [call]
            logs := [.info log_msg, .warning warn1, .warning warn2]
            buffer := [log_msg ++ "\n", "WARNING: " ++ warn1 ++ "\n",
              "WARNING: " ++ warn2 ++ "\n"] }
        else
          { calls := [call]
            logs := [.info log_msg, .warning warn1]
            buffer := [log_msg ++ "\n", "WARNING: " ++ warn1 ++ "\n"] }
  else
    { calls := [], logs := [], buffer := [] }

end App

namespace ConsoleBot

/-- Shallow embedding of the `message` callback of the CLI host
(src/console_bot.py lines 47-72). Identical to the interactive host's
callback except: the received-message line truncates to 70 characters,
nothing is written to a capture buffer, and the no-data branch has an
`elif response.error:` arm that logs the failure at error level when the
error is not a unique-constraint violation. -/
def handle_message_events (target_slack_user_id supabase_table_name : String)
    (store : InsertCall → StoreResponse) (event : SlackEvent) : HandlerOutput :=
  let event_user_id := getStr event.user
  let message_text := getStr event.text
  let channel_id := getStr event.channel
  let message_ts := getStr event.ts
  if isRelevant target_slack_user_id event then
    let log_msg := "Received message from target user (" ++ pyShow event_user_id ++
      ") in channel (" ++ pyShow channel_id ++ "): \x27" ++
      pyTake 70 (message_text.getD "") ++ "...\x27"
    let data_to_insert : Row :=
      { slack_user_id := event_user_id
        slack_channel_id := channel_id
        message_content := message_text
        slack_message_ts := message_ts }
    let call : InsertCall := { table := supabase_table_name, row := data_to_insert }
    match store call with
    | .raise m =>
      { calls := [call]
        logs := [.info log_msg, .error ("Error storing message in Supabase: " ++ m)]
        buffer := [] }
    | .result d err =>
      match d with
      | id :: _ =>
        { calls := [call]
          logs := [.info log_msg,
            .info ("Message successfully stored in Supabase. ID: " ++ toString id)]
          buffer := [] }
      | [] =>
        let err_str := match err with
          | some er => er.message
          | none => "No error info"
        let warn1 := "Supabase insert did not return data: " ++ err_str
        if isUniqueViolation err then
          let warn2 := "Duplicate message (slack_message_ts: " ++ pyShow message_ts ++
            ") not inserted."
          { calls := [call]
            logs := [.info log_msg, .warning warn1, .warning warn2]
            buffer := [] }
        else
          match err with
          | some er =>
            { calls := [call]
              logs := [.info log_msg, .warning warn1,
                .error ("Failed to store message in Supabase: " ++ er.message)]
              buffer := [] }
          | none =>
            { calls := [call]
              logs := [.info log_msg, .warning warn1]
              buffer := [] }
  else
    { calls := [], logs := [], buffer := [] }

end ConsoleBot

/-- The configuration both hosts must produce: five mandatory string
settings plus the table name (defaulted when not supplied). Mirrors the
`st.session_state.config` dict of src/app.py lines 175-182 and the six
locals of src/console_bot.py lines 27-34. -/
structure RuntimeConfig where
  slack_bot_token : String
  slack_app_token : String
  supabase_url : String
  supabase_service_key : String
  target_slack_user_id : String
  supabase_table_name : String
deriving DecidableEq

namespace ConsoleBot

/-- `get_env_variable` (src/console_bot.py lines 9-20). `env` is
`os.getenv`; `inp` is the interactive prompt (`input`/`getpass`), where
`none` models a closed stdin (the prompt call raises `EOFError`, which
propagates out of `run_bot`'s pre-`try` section and terminates the process
with status 1, the same observable outcome as the explicit `sys.exit(1)`
taken when the prompt returns an empty string). -/
def get_env_variable (env inp : String → Option String)
    (var_name prompt_text : String) : Except Nat String :=
  let value := (env var_name).getD ""
  if value = "" then
    match inp prompt_text with
    | none => .error 1
    | some v => if v = "" then .error 1 else .ok v
  else
    .ok value

/-- The configuration-resolution section of `run_bot`
(src/console_bot.py lines 27-34): five `get_env_variable` calls in order,
then the table name from the environment with an interactive fallback that
defaults to the literal table name on empty input. `.error c` means the
process exited with status `c` during this section. -/
def resolve_config (env inp : String → Option String) : Except Nat RuntimeConfig :=
  match get_env_variable env inp "SLACK_BOT_TOKEN" "Enter Slack Bot Token (xoxb-)" with
  | .error c => .error c
  | .ok slack_bot_token =>
  match get_env_variable env inp "SLACK_APP_TOKEN" "Enter Slack App Token (xapp-)" with
  | .error c => .error c
  | .ok slack_app_token =>
  match get_env_variable env inp "SUPABASE_URL" "Enter Supabase Project URL" with
  | .error c => .error c
  | .ok supabase_url =>
  match get_env_variable env inp "SUPABASE_SERVICE_KEY" "Enter Supabase Service Role Key" with
  | .error c => .error c
  | .ok supabase_service_key =>
  match get_env_variable env inp "TARGET_SLACK_USER_ID" "Enter Target Slack User ID (e.g., UXXXXXXXXXX)" with
  | .error c => .error c
  | .ok target_slack_user_id =>
  if (env "SUPABASE_TABLE_NAME").getD "" = "" then
    match inp "Enter Supabase Table Name (default: slack_messages_for_sensay): " with
    | none => .error 1
    | some v =>
      .ok { slack_bot_token, slack_app_token, supabase_url, supabase_service_key,
            target_slack_user_id,
            supabase_table_name := if v = "" then "slack_messages_for_sensay" else v }
  else
    .ok { slack_bot_token, slack_app_token, supabase_url, supabase_service_key,
          target_slack_user_id,
          supabase_table_name := (env "SUPABASE_TABLE_NAME").getD "" }

/-- How far `run_bot` (src/console_bot.py lines 22-81) gets: either the
process exits with a status code while resolving configuration, or it
reaches line 39 and constructs the Slack and Supabase clients and the
listener with the resolved configuration. -/
inductive RunBotOutcome where
  | exited (code : Nat)
  | started (cfg : RuntimeConfig)
deriving DecidableEq

/-- The startup path of `run_bot`: resolve configuration, then construct
clients and start the listener. Client/listener construction happens only
in the `started` outcome. -/
def run_bot (env inp : String → Option String) : RunBotOutcome :=
  match resolve_config env inp with
  | .error c => .exited c
  | .ok cfg => .started cfg

end ConsoleBot

namespace App

/-- The submitted branch of the configuration form (src/app.py lines
161-184): collect the names of empty mandatory fields; if any is missing,
surface the validation error and stay on the configuration step, otherwise
build the config dict, defaulting the table name when the field was left
empty (`supabase_table_name or "slack_messages_for_sensay"`). -/
def env_var_form (slack_bot_token slack_app_token supabase_url supabase_service_key
    target_slack_user_id supabase_table_name : String) : Except (List String) RuntimeConfig :=
  let missing :=
    (if slack_bot_token = "" then ["Slack Bot Token"] else []) ++
    (if slack_app_token = "" then ["Slack App Token"] else []) ++
    (if supabase_url = "" then ["Supabase URL"] else []) ++
    (if supabase_service_key = "" then ["Supabase Service Key"] else []) ++
    (if target_slack_user_id = "" then ["Target Slack User ID"] else [])
  let critical_missing := missing
  if critical_missing = [] then
    .ok { slack_bot_token, slack_app_token, supabase_url, supabase_service_key,
          target_slack_user_id,
          supabase_table_name :=
            if supabase_table_name = "" then "slack_messages_for_sensay"
            else supabase_table_name }
  else
    .error critical_missing

end App

/-- An environment holding exactly the six named settings, with `""`
standing for an unset value, used to feed both fulfillment strategies the
same inputs. -/
def envOf (slack_bot_token slack_app_token supabase_url supabase_service_key
    target_slack_user_id supabase_table_name : String) : String → Option String :=
  fun v =>
    if v = "SLACK_BOT_TOKEN" then some slack_bot_token
    else if v = "SLACK_APP_TOKEN" then some slack_app_token
    else if v = "SUPABASE_URL" then some supabase_url
    else if v = "SUPABASE_SERVICE_KEY" then some supabase_service_key
    else if v = "TARGET_SLACK_USER_ID" then some target_slack_user_id
    else if v = "SUPABASE_TABLE_NAME" then some supabase_table_name
    else none

/-- The shared log capture object (src/app.py lines 20-37): `write` appends
one message to the internal buffer list, `get_logs` joins the whole buffer
into one string, `clear_logs` empties it. -/
structure StreamlitLogHandler where
  buffer : List String
deriving DecidableEq

namespace StreamlitLogHandler

/-- `write` (src/app.py lines 25-29): append the message to the buffer
(the echo to the real stdout has no observable effect on the buffer). -/
def write (h : StreamlitLogHandler) (message : String) : StreamlitLogHandler :=
  { buffer := h.buffer ++ [message] }

/-- `get_logs` (src/app.py lines 31-32): snapshot read, joining all
buffered entries in order. -/
def get_logs (h : StreamlitLogHandler) : String :=
  String.join h.buffer

/-- `clear_logs` (src/app.py lines 34-37). -/
def clear_logs (_ : StreamlitLogHandler) : StreamlitLogHandler :=
  { buffer := [] }

/-- A sequence of `write` calls, in order. -/
def writeAll (h : StreamlitLogHandler) (ms : List String) : StreamlitLogHandler :=
  ms.foldl write h

end StreamlitLogHandler

/-- The config dict handed to the background thread by the interactive
host; `SUPABASE_TABLE_NAME` is read with `config.get(..., default)`
(src/app.py line 46), so it is optional here. -/
structure ConfigDict where
  slack_bot_token : String
  slack_app_token : String
  supabase_url : String
  supabase_service_key : String
  target_slack_user_id : String
  supabase_table_name : Option String
deriving DecidableEq

/-- Everything a run of the background listener observably produces while
the events in `events` are delivered: logger lines, the final state of the
capture buffer, and the insert calls issued. -/
structure ListenerRun where
  logs : List LogLine
  buffer : StreamlitLogHandler
  calls : List InsertCall
deriving DecidableEq

namespace App

/-- Shallow embedding of `start_slack_bot_listener` (src/app.py lines
40-114) up to the point where `handler.start()` is blocking and `events`
have been delivered to the registered callback. The `stop_event` parameter
is accepted exactly as in the source and, exactly as in the source, never
read: nothing after the binder mentions it (src/app.py line 113 comments
that `handler.start()` does not use it). Startup log lines are written,
then each delivered event is handled by `handle_message_events` with the
target user and table name taken from the config (table name defaulted at
line 46). -/
def start_slack_bot_listener (config : ConfigDict) (stop_event : Bool)
    (log_capture_buffer : StreamlitLogHandler) (store : InsertCall → StoreResponse)
    (events : List SlackEvent) : ListenerRun :=
  let target_slack_user_id := config.target_slack_user_id
  let supabase_table_name := config.supabase_table_name.getD "slack_messages_for_sensay"
  let startup_buffer_writes :=
    ["Bot thread started. Initializing Slack and Supabase clients...\n",
     "Supabase client initialized for URL: " ++ config.supabase_url ++ "\n",
     "Monitoring messages from Slack User ID: " ++ target_slack_user_id ++ "\n",
     "Storing messages in Supabase table: " ++ supabase_table_name ++ "\n",
     "Starting SocketModeHandler...\n"]
  let startup_logs : List LogLine :=
    [.info "Bot thread started. Initializing Slack and Supabase clients...",
     .info ("Supabase client initialized for URL: " ++ config.supabase_url),
     .info ("Monitoring messages from Slack User ID: " ++ target_slack_user_id),
     .info ("Storing messages in Supabase table: " ++ supabase_table_name),
     .info "Starting SocketModeHandler..."]
  let outs := events.map (handle_message_events target_slack_user_id supabase_table_name store)
  { logs := startup_logs ++ (outs.map HandlerOutput.logs).flatten
    buffer := (log_capture_buffer.writeAll startup_buffer_writes).writeAll
      ((outs.map HandlerOutput.buffer).flatten)
    calls := (outs.map HandlerOutput.calls).flatten }

end App

/-- The foreground (Streamlit) session state relevant to bot control
(src/app.py lines 133-143): the configuration-confirmed and bot-started
flags, the stop event, the handle of the background thread, and the shared
log capture object. -/
structure SessionState where
  env_vars_confirmed : Bool
  bot_started : Bool
  stop_event : Bool
  bot_thread : Option Nat
  streamlit_log_handler : StreamlitLogHandler
deriving DecidableEq

/-- The reset button branch (src/app.py lines 224-237): set the stop event,
clear the started and confirmed flags, write one line to the capture
buffer. The thread handle is left untouched (the nulling is commented out
at line 234) and nothing joins or interrupts the thread. -/
def stop_bot (s : SessionState) : SessionState :=
  { s with
    stop_event := true
    bot_started := false
    env_vars_confirmed := false
    streamlit_log_handler :=
      s.streamlit_log_handler.write "UI Stop requested. Resetting configuration.\n" }

/-- The boolean relevance test of line 76 / line 53 holds exactly when the
three-part predicate of the specification holds, reading the event the way
the handler does (through `event.get`). -/
theorem isRelevant_eq_true_iff (target_slack_user_id : String) (event : SlackEvent) :
    isRelevant target_slack_user_id event = true ↔
      (getStr event.subtype = none ∧ getStr event.user = some target_slack_user_id ∧
        ∃ t, getStr event.text = some t ∧ t ≠ "") := by
  cases htx : getStr event.text with
  | none =>
    simp [isRelevant, htx, pyTruthy, Option.isNone_iff_eq_none]
  | some s =>
    simp [isRelevant, htx, pyTruthy, Option.isNone_iff_eq_none, bne_iff_ne, and_assoc]

/-- C1: the handler inserts only for events passing the three-part
relevance predicate (subtype absent as seen through `event.get`, author
equal to the target user, text present and non-empty), and any event
failing it is a complete no-op in both hosts: no insert call, no log line,
no buffer write, and — the callback being a total function — no error. -/
theorem irrelevant_event_is_complete_noop
    (target_slack_user_id supabase_table_name : String)
    (store : InsertCall → StoreResponse) (event : SlackEvent) :
    (isRelevant target_slack_user_id event = true ↔
      (getStr event.subtype = none ∧ getStr event.user = some target_slack_user_id ∧
        ∃ t, getStr event.text = some t ∧ t ≠ "")) ∧
    (isRelevant target_slack_user_id event = false →
      App.handle_message_events target_slack_user_id supabase_table_name store event =
        { calls := [], logs := [], buffer := [] } ∧
      ConsoleBot.handle_message_events target_slack_user_id supabase_table_name store event =
        { calls := [], logs := [], buffer := [] }) := by
  refine ⟨isRelevant_eq_true_iff _ _, fun h => ⟨?_, ?_⟩⟩ <;>
    simp [App.handle_message_events, ConsoleBot.handle_message_events, h]

/-- Witness for C1: a message-edit event (subtype present) from the target
user is dropped by both handlers with no insert, no log and no buffer
write. -/
theorem irrelevant_event_is_complete_noop_witness :
    App.handle_message_events "U1" "tbl" (fun _ => .result [1] none)
        ⟨some (.str "message_changed"), some (.str "U1"), some (.str "hi"),
          some (.str "C1"), some (.str "T1")⟩ =
      { calls := [], logs := [], buffer := [] } ∧
    ConsoleBot.handle_message_events "U1" "tbl" (fun _ => .result [1] none)
        ⟨some (.str "message_changed"), some (.str "U1"), some (.str "hi"),
          some (.str "C1"), some (.str "T1")⟩ =
      { calls := [], logs := [], buffer := [] } :=
  (irrelevant_event_is_complete_noop "U1" "tbl" (fun _ => .result [1] none)
    ⟨some (.str "message_changed"), some (.str "U1"), some (.str "hi"),
      some (.str "C1"), some (.str "T1")⟩).2 (by decide)

/-- C2: for every event passing the relevance test, each host issues
exactly one insert call, against the configured table, whose row is exactly
the four event fields `{slack_user_id = userId, slack_channel_id =
channelId, message_content = text, slack_message_ts = timestampToken}`,
whatever the store then answers. -/
theorem relevant_event_single_exact_insert
    (target_slack_user_id supabase_table_name : String)
    (store : InsertCall → StoreResponse) (event : SlackEvent)
    (hrel : isRelevant target_slack_user_id event = true) :
    (App.handle_message_events target_slack_user_id supabase_table_name store event).calls =
      [{ table := supabase_table_name, row := rowOf event }] ∧
    (ConsoleBot.handle_message_events target_slack_user_id supabase_table_name store event).calls =
      [{ table := supabase_table_name, row := rowOf event }] := by
  refine ⟨?_, ?_⟩ <;>
  · simp only [App.handle_message_events, ConsoleBot.handle_message_events, hrel, if_true]
    split <;> (try split) <;> (try split) <;> (try split) <;> rfl

/-- Witness for C2: the specification's concrete instance — target user
"U_target", text "hello", channel "C1", timestamp token "T1" — yields the
single inserted row
`{slack_user_id:"U_target", slack_channel_id:"C1", message_content:"hello",
slack_message_ts:"T1"}` in both hosts. -/
theorem relevant_event_single_exact_insert_witness :
    isRelevant "U_target"
        ⟨none, some (.str "U_target"), some (.str "hello"), some (.str "C1"),
          some (.str "T1")⟩ = true ∧
    (App.handle_message_events "U_target" "slack_messages_for_sensay"
        (fun _ => .result [1] none)
        ⟨none, some (.str "U_target"), some (.str "hello"), some (.str "C1"),
          some (.str "T1")⟩).calls =
      [{ table := "slack_messages_for_sensay",
         row := { slack_user_id := some "U_target", slack_channel_id := some "C1",
                  message_content := some "hello", slack_message_ts := some "T1" } }] ∧
    (ConsoleBot.handle_message_events "U_target" "slack_messages_for_sensay"
        (fun _ => .result [1] none)
        ⟨none, some (.str "U_target"), some (.str "hello"), some (.str "C1"),
          some (.str "T1")⟩).calls =
      [{ table := "slack_messages_for_sensay",
         row := { slack_user_id := some "U_target", slack_channel_id := some "C1",
                  message_content := some "hello", slack_message_ts := some "T1" } }] :=
  ⟨by decide,
    (relevant_event_single_exact_insert "U_target" "slack_messages_for_sensay"
      (fun _ => .result [1] none)
      ⟨none, some (.str "U_target"), some (.str "hello"), some (.str "C1"),
        some (.str "T1")⟩ (by decide)).1,
    (relevant_event_single_exact_insert "U_target" "slack_messages_for_sensay"
      (fun _ => .result [1] none)
      ⟨none, some (.str "U_target"), some (.str "hello"), some (.str "C1"),
        some (.str "T1")⟩ (by decide)).2⟩

/-- C3: when the insert for a relevant event comes back with no row data
and an error whose message indicates a uniqueness-constraint violation,
both hosts log a warning naming the duplicate timestamp token, issue no
second insert (the one recorded call is the rejected attempt), emit no
error-level line, and return normally. -/
theorem duplicate_insert_warns_and_stays_nonfatal
    (target_slack_user_id supabase_table_name : String)
    (store : InsertCall → StoreResponse) (event : SlackEvent) (er : SupabaseError)
    (hrel : isRelevant target_slack_user_id event = true)
    (hresp : store { table := supabase_table_name, row := rowOf event } =
      .result [] (some er))
    (hdup : isUniqueViolation (some er) = true) :
    ((App.handle_message_events target_slack_user_id supabase_table_name store event).calls =
        [{ table := supabase_table_name, row := rowOf event }] ∧
      LogLine.warning ("Duplicate message (slack_message_ts: " ++ pyShow (getStr event.ts) ++
          ") not inserted.") ∈
        (App.handle_message_events target_slack_user_id supabase_table_name store event).logs ∧
      (App.handle_message_events target_slack_user_id supabase_table_name store
          event).logs.any isErrorLog = false) ∧
    ((ConsoleBot.handle_message_events target_slack_user_id supabase_table_name store
        event).calls = [{ table := supabase_table_name, row := rowOf event }] ∧
      LogLine.warning ("Duplicate message (slack_message_ts: " ++ pyShow (getStr event.ts) ++
          ") not inserted.") ∈
        (ConsoleBot.handle_message_events target_slack_user_id supabase_table_name store
          event).logs ∧
      (ConsoleBot.handle_message_events target_slack_user_id supabase_table_name store
          event).logs.any isErrorLog = false) := by
  have hr := hresp
  simp only [rowOf] at hr
  refine ⟨⟨?_, ?_, ?_⟩, ⟨?_, ?_, ?_⟩⟩ <;>
  · simp only [App.handle_message_events, ConsoleBot.handle_message_events, hrel, if_true]
    rw [hr]
    simp [hdup, rowOf, isErrorLog]

/-- Witness for C3: redelivery of the stored "hello" message, with the
store answering no data and a duplicate-key error, produces the duplicate
warning in both hosts and no second insert. -/
theorem duplicate_insert_warns_and_stays_nonfatal_witness :
    isRelevant "U_target"
        ⟨none, some (.str "U_target"), some (.str "hello"), some (.str "C1"),
          some (.str "T1")⟩ = true ∧
    isUniqueViolation
        (some { message := "duplicate key value violates unique constraint \x22k\x22" }) =
      true ∧
    LogLine.warning ("Duplicate message (slack_message_ts: " ++
        pyShow (getStr (some (JVal.str "T1"))) ++ ") not inserted.") ∈
      (App.handle_message_events "U_target" "slack_messages_for_sensay"
        (fun _ => .result []
          (some { message := "duplicate key value violates unique constraint \x22k\x22" }))
        ⟨none, some (.str "U_target"), some (.str "hello"), some (.str "C1"),
          some (.str "T1")⟩).logs ∧
    LogLine.warning ("Duplicate message (slack_message_ts: " ++
        pyShow (getStr (some (JVal.str "T1"))) ++ ") not inserted.") ∈
      (ConsoleBot.handle_message_events "U_target" "slack_messages_for_sensay"
        (fun _ => .result []
          (some { message := "duplicate key value violates unique constraint \x22k\x22" }))
        ⟨none, some (.str "U_target"), some (.str "hello"), some (.str "C1"),
          some (.str "T1")⟩).logs :=
  ⟨by decide, by decide,
    ((duplicate_insert_warns_and_stays_nonfatal "U_target" "slack_messages_for_sensay"
      (fun _ => .result []
        (some { message := "duplicate key value violates unique constraint \x22k\x22" }))
      ⟨none, some (.str "U_target"), some (.str "hello"), some (.str "C1"),
        some (.str "T1")⟩
      { message := "duplicate key value violates unique constraint \x22k\x22" }
      (by decide) rfl (by decide)).1).2.1,
    ((duplicate_insert_warns_and_stays_nonfatal "U_target" "slack_messages_for_sensay"
      (fun _ => .result []
        (some { message := "duplicate key value violates unique constraint \x22k\x22" }))
      ⟨none, some (.str "U_target"), some (.str "hello"), some (.str "C1"),
        some (.str "T1")⟩
      { message := "duplicate key value violates unique constraint \x22k\x22" }
      (by decide) rfl (by decide)).2).2.1⟩

/-- Counterexample to C4 as stated: a qualifying event whose insert comes
back with no data and a non-uniqueness error ("connection reset by peer")
is handled by the interactive host with a warning-level line only — the
insert call is made and the event handled, yet no error-level log line is
emitted, contradicting "the handler logs an error with the underlying
cause". -/
theorem non_unique_failure_no_error_log_in_app :
    (App.handle_message_events "U1" "tbl"
        (fun _ => .result [] (some { message := "connection reset by peer" }))
        ⟨none, some (.str "U1"), some (.str "hi"), some (.str "C1"),
          some (.str "T1")⟩).calls ≠ [] ∧
    (App.handle_message_events "U1" "tbl"
        (fun _ => .result [] (some { message := "connection reset by peer" }))
        ⟨none, some (.str "U1"), some (.str "hi"), some (.str "C1"),
          some (.str "T1")⟩).logs.any isErrorLog = false := by
  decide

/-- C4 (amended): for a qualifying event whose insert fails for a reason
other than a uniqueness violation, both handlers log the failure with its
underlying cause and return normally, issuing exactly the one insert call
(no retry): at error level when the insert raises (both hosts) and when a
non-success result carries an error object (CLI host); at warning level
for a non-success result in the interactive host, and in either host when
a non-success result carries no error object. No such failure terminates
event processing: the listener handles the events delivered after it
unchanged. -/
theorem non_unique_failure_logging_and_no_retry
    (target_slack_user_id supabase_table_name : String)
    (store : InsertCall → StoreResponse) (event : SlackEvent)
    (hrel : isRelevant target_slack_user_id event = true) :
    (∀ m, store { table := supabase_table_name, row := rowOf event } = .raise m →
      ((App.handle_message_events target_slack_user_id supabase_table_name store
          event).calls = [{ table := supabase_table_name, row := rowOf event }] ∧
        LogLine.error ("Error storing message in Supabase: " ++ m) ∈
          (App.handle_message_events target_slack_user_id supabase_table_name store
            event).logs) ∧
      ((ConsoleBot.handle_message_events target_slack_user_id supabase_table_name store
          event).calls = [{ table := supabase_table_name, row := rowOf event }] ∧
        LogLine.error ("Error storing message in Supabase: " ++ m) ∈
          (ConsoleBot.handle_message_events target_slack_user_id supabase_table_name store
            event).logs)) ∧
    (∀ er, store { table := supabase_table_name, row := rowOf event } =
        .result [] (some er) →
      isUniqueViolation (some er) = false →
      ((App.handle_message_events target_slack_user_id supabase_table_name store
          event).calls = [{ table := supabase_table_name, row := rowOf event }] ∧
        LogLine.warning ("Supabase insert did not return data: " ++ er.message) ∈
          (App.handle_message_events target_slack_user_id supabase_table_name store
            event).logs ∧
        (App.handle_message_events target_slack_user_id supabase_table_name store
          event).logs.any isErrorLog = false) ∧
      ((ConsoleBot.handle_message_events target_slack_user_id supabase_table_name store
          event).calls = [{ table := supabase_table_name, row := rowOf event }] ∧
        LogLine.error ("Failed to store message in Supabase: " ++ er.message) ∈
          (ConsoleBot.handle_message_events target_slack_user_id supabase_table_name store
            event).logs)) ∧
    (store { table := supabase_table_name, row := rowOf event } = .result [] none →
      ((App.handle_message_events target_slack_user_id supabase_table_name store
          event).calls = [{ table := supabase_table_name, row := rowOf event }] ∧
        LogLine.warning "Supabase insert did not return data: No error info" ∈
          (App.handle_message_events target_slack_user_id supabase_table_name store
            event).logs ∧
        (App.handle_message_events target_slack_user_id supabase_table_name store
          event).logs.any isErrorLog = false) ∧
      ((ConsoleBot.handle_message_events target_slack_user_id supabase_table_name store
          event).calls = [{ table := supabase_table_name, row := rowOf event }] ∧
        LogLine.warning "Supabase insert did not return data: No error info" ∈
          (ConsoleBot.handle_message_events target_slack_user_id supabase_table_name store
            event).logs ∧
        (ConsoleBot.handle_message_events target_slack_user_id supabase_table_name store
          event).logs.any isErrorLog = false)) ∧
    (∀ (config : ConfigDict) (stop_flag : Bool) (buf : StreamlitLogHandler)
        (events1 events2 : List SlackEvent),
      (App.start_slack_bot_listener config stop_flag buf store (events1 ++ events2)).calls =
        (App.start_slack_bot_listener config stop_flag buf store events1).calls ++
          (App.start_slack_bot_listener config stop_flag buf store events2).calls) := by
  refine ⟨fun m hm => ?_, fun er hr hnd => ?_, fun hn => ?_, fun config sf buf e1 e2 => ?_⟩
  · simp only [rowOf] at hm
    refine ⟨⟨?_, ?_⟩, ⟨?_, ?_⟩⟩ <;>
    · simp only [App.handle_message_events, ConsoleBot.handle_message_events, hrel, if_true]
      rw [hm]
      simp [rowOf]
  · simp only [rowOf] at hr
    refine ⟨⟨?_, ?_, ?_⟩, ⟨?_, ?_⟩⟩ <;>
    · simp only [App.handle_message_events, ConsoleBot.handle_message_events, hrel, if_true]
      rw [hr]
      simp [hnd, rowOf, isErrorLog]
  · simp only [rowOf] at hn
    refine ⟨⟨?_, ?_, ?_⟩, ⟨?_, ?_, ?_⟩⟩ <;>
    · simp only [App.handle_message_events, ConsoleBot.handle_message_events, hrel, if_true]
      rw [hn]
      simp [isUniqueViolation, rowOf, isErrorLog]
  · simp [App.start_slack_bot_listener, List.map_append, List.flatten_append]

/-- Witness for C4 (amended): the concrete non-uniqueness store failure of
the counterexample, fed through the theorem — the interactive host warns
(no error-level line), the CLI host logs the failure at error level, and
each issues exactly the one insert. -/
theorem non_unique_failure_logging_and_no_retry_witness :
    isRelevant "U1" ⟨none, some (.str "U1"), some (.str "hi"), some (.str "C1"),
        some (.str "T1")⟩ = true ∧
    isUniqueViolation (some { message := "connection reset by peer" }) = false ∧
    (((App.handle_message_events "U1" "tbl"
        (fun _ => .result [] (some { message := "connection reset by peer" }))
        ⟨none, some (.str "U1"), some (.str "hi"), some (.str "C1"),
          some (.str "T1")⟩).calls =
      [{ table := "tbl",
         row := rowOf ⟨none, some (.str "U1"), some (.str "hi"), some (.str "C1"),
           some (.str "T1")⟩ }] ∧
      LogLine.warning ("Supabase insert did not return data: " ++ "connection reset by peer") ∈
        (App.handle_message_events "U1" "tbl"
          (fun _ => .result [] (some { message := "connection reset by peer" }))
          ⟨none, some (.str "U1"), some (.str "hi"), some (.str "C1"),
            some (.str "T1")⟩).logs ∧
      (App.handle_message_events "U1" "tbl"
        (fun _ => .result [] (some { message := "connection reset by peer" }))
        ⟨none, some (.str "U1"), some (.str "hi"), some (.str "C1"),
          some (.str "T1")⟩).logs.any isErrorLog = false) ∧
    ((ConsoleBot.handle_message_events "U1" "tbl"
        (fun _ => .result [] (some { message := "connection reset by peer" }))
        ⟨none, some (.str "U1"), some (.str "hi"), some (.str "C1"),
          some (.str "T1")⟩).calls =
      [{ table := "tbl",
         row := rowOf ⟨none, some (.str "U1"), some (.str "hi"), some (.str "C1"),
           some (.str "T1")⟩ }] ∧
      LogLine.error ("Failed to store message in Supabase: " ++ "connection reset by peer") ∈
        (ConsoleBot.handle_message_events "U1" "tbl"
          (fun _ => .result [] (some { message := "connection reset by peer" }))
          ⟨none, some (.str "U1"), some (.str "hi"), some (.str "C1"),
            some (.str "T1")⟩).logs)) :=
  ⟨by decide, by decide,
    (non_unique_failure_logging_and_no_retry "U1" "tbl"
      (fun _ => .result [] (some { message := "connection reset by peer" }))
      ⟨none, some (.str "U1"), some (.str "hi"), some (.str "C1"), some (.str "T1")⟩
      (by decide)).2.1 { message := "connection reset by peer" } rfl (by decide)⟩

/-- C9: an event whose `subtype` key is present but holds JSON null is
treated by both handlers exactly like the same event with no `subtype` key
at all — `dict.get` collapses the two — and in particular, when the author
matches the target and the text is truthy, the insert is issued. -/
theorem null_subtype_equals_absent_subtype
    (target_slack_user_id supabase_table_name : String)
    (store : InsertCall → StoreResponse) (event : SlackEvent) :
    App.handle_message_events target_slack_user_id supabase_table_name store
        { event with subtype := some JVal.null } =
      App.handle_message_events target_slack_user_id supabase_table_name store
        { event with subtype := none } ∧
    ConsoleBot.handle_message_events target_slack_user_id supabase_table_name store
        { event with subtype := some JVal.null } =
      ConsoleBot.handle_message_events target_slack_user_id supabase_table_name store
        { event with subtype := none } ∧
    (getStr event.user = some target_slack_user_id →
      pyTruthy (getStr event.text) = true →
      (App.handle_message_events target_slack_user_id supabase_table_name store
        { event with subtype := some JVal.null }).calls ≠ [] ∧
      (ConsoleBot.handle_message_events target_slack_user_id supabase_table_name store
        { event with subtype := some JVal.null }).calls ≠ []) := by
  refine ⟨rfl, rfl, fun h1 h2 => ?_⟩
  have hrel : isRelevant target_slack_user_id { event with subtype := some JVal.null } =
      true := by
    have hnull : getStr (some JVal.null) = none := rfl
    simp [isRelevant, hnull, h1, h2]
  refine ⟨?_, ?_⟩ <;>
  · simp only [App.handle_message_events, ConsoleBot.handle_message_events, hrel, if_true]
    split <;> (try split) <;> (try split) <;> (try split) <;> simp

/-- Witness for C9: a null-subtype event from the target user with
non-empty text leads to an insert in both hosts. -/
theorem null_subtype_equals_absent_subtype_witness :
    getStr (SlackEvent.user ⟨none, some (.str "U1"), some (.str "hi"), some (.str "C1"),
        some (.str "T1")⟩) = some "U1" ∧
    pyTruthy (getStr (SlackEvent.text ⟨none, some (.str "U1"), some (.str "hi"),
        some (.str "C1"), some (.str "T1")⟩)) = true ∧
    (App.handle_message_events "U1" "tbl" (fun _ => .result [1] none)
      ⟨some JVal.null, some (.str "U1"), some (.str "hi"), some (.str "C1"),
        some (.str "T1")⟩).calls ≠ [] ∧
    (ConsoleBot.handle_message_events "U1" "tbl" (fun _ => .result [1] none)
      ⟨some JVal.null, some (.str "U1"), some (.str "hi"), some (.str "C1"),
        some (.str "T1")⟩).calls ≠ [] :=
  ⟨rfl, rfl,
    (null_subtype_equals_absent_subtype "U1" "tbl" (fun _ => .result [1] none)
      ⟨none, some (.str "U1"), some (.str "hi"), some (.str "C1"),
        some (.str "T1")⟩).2.2 rfl rfl⟩

/-- C10: for a qualifying event the stored row carries the full message
text whatever its length; the 50-character (interactive host) and
70-character (CLI host) truncations appear only in the received-message
log line. -/
theorem full_text_stored_truncation_only_in_log
    (target_slack_user_id supabase_table_name : String)
    (store : InsertCall → StoreResponse) (event : SlackEvent) (t : String)
    (hsub : getStr event.subtype = none)
    (huser : getStr event.user = some target_slack_user_id)
    (htext : getStr event.text = some t) (hne : t ≠ "") :
    ((App.handle_message_events target_slack_user_id supabase_table_name store
        event).calls =
      [{ table := supabase_table_name,
         row := { slack_user_id := some target_slack_user_id,
                  slack_channel_id := getStr event.channel,
                  message_content := some t,
                  slack_message_ts := getStr event.ts } }] ∧
      (App.handle_message_events target_slack_user_id supabase_table_name store
        event).logs.head? =
        some (.info ("Received message from target user (" ++ target_slack_user_id ++
          ") in channel (" ++ pyShow (getStr event.channel) ++ "): \x27" ++
          pyTake 50 t ++ "...\x27"))) ∧
    ((ConsoleBot.handle_message_events target_slack_user_id supabase_table_name store
        event).calls =
      [{ table := supabase_table_name,
         row := { slack_user_id := some target_slack_user_id,
                  slack_channel_id := getStr event.channel,
                  message_content := some t,
                  slack_message_ts := getStr event.ts } }] ∧
      (ConsoleBot.handle_message_events target_slack_user_id supabase_table_name store
        event).logs.head? =
        some (.info ("Received message from target user (" ++ target_slack_user_id ++
          ") in channel (" ++ pyShow (getStr event.channel) ++ "): \x27" ++
          pyTake 70 t ++ "...\x27"))) := by
  have hrel : isRelevant target_slack_user_id event = true :=
    (isRelevant_eq_true_iff target_slack_user_id event).2 ⟨hsub, huser, t, htext, hne⟩
  refine ⟨⟨?_, ?_⟩, ⟨?_, ?_⟩⟩ <;>
  · simp only [App.handle_message_events, ConsoleBot.handle_message_events, hrel, if_true,
      huser, htext]
    split <;> (try split) <;> (try split) <;> (try split) <;> simp [pyShow]

/-- Witness for C10: an 80-character message is stored in full by both
hosts while the log line carries only its first 50 (interactive host)
respectively 70 (CLI host) characters. -/
theorem full_text_stored_truncation_only_in_log_witness :
    String.mk (List.replicate 80 'a') ≠ "" ∧
    ((App.handle_message_events "U1" "tbl" (fun _ => .result [1] none)
        ⟨none, some (.str "U1"), some (.str (String.mk (List.replicate 80 'a'))),
          some (.str "C1"), some (.str "T1")⟩).calls =
      [{ table := "tbl",
         row := { slack_user_id := some "U1", slack_channel_id := some "C1",
                  message_content := some (String.mk (List.replicate 80 'a')),
                  slack_message_ts := some "T1" } }] ∧
      (App.handle_message_events "U1" "tbl" (fun _ => .result [1] none)
        ⟨none, some (.str "U1"), some (.str (String.mk (List.replicate 80 'a'))),
          some (.str "C1"), some (.str "T1")⟩).logs.head? =
        some (.info ("Received message from target user (" ++ "U1" ++
          ") in channel (" ++ "C1" ++ "): \x27" ++
          pyTake 50 (String.mk (List.replicate 80 'a')) ++ "...\x27"))) ∧
    ((ConsoleBot.handle_message_events "U1" "tbl" (fun _ => .result [1] none)
        ⟨none, some (.str "U1"), some (.str (String.mk (List.replicate 80 'a'))),
          some (.str "C1"), some (.str "T1")⟩).calls =
      [{ table := "tbl",
         row := { slack_user_id := some "U1", slack_channel_id := some "C1",
                  message_content := some (String.mk (List.replicate 80 'a')),
                  slack_message_ts := some "T1" } }] ∧
      (ConsoleBot.handle_message_events "U1" "tbl" (fun _ => .result [1] none)
        ⟨none, some (.str "U1"), some (.str (String.mk (List.replicate 80 'a'))),
          some (.str "C1"), some (.str "T1")⟩).logs.head? =
        some (.info ("Received message from target user (" ++ "U1" ++
          ") in channel (" ++ "C1" ++ "): \x27" ++
          pyTake 70 (String.mk (List.replicate 80 'a')) ++ "...\x27"))) :=
  ⟨by decide,
    full_text_stored_truncation_only_in_log "U1" "tbl" (fun _ => .result [1] none)
      ⟨none, some (.str "U1"), some (.str (String.mk (List.replicate 80 'a'))),
        some (.str "C1"), some (.str "T1")⟩
      (String.mk (List.replicate 80 'a')) rfl rfl rfl (by decide)⟩

/-- A `get_env_variable` call whose environment variable is unset fails
with exit status 1 whenever the prompt yields nothing (closed stdin) or an
empty line. -/
theorem gev_of_missing (env inp : String → Option String) (v p : String)
    (he : env v = none) (hi : inp p = none ∨ inp p = some "") :
    ConsoleBot.get_env_variable env inp v p = .error 1 := by
  rcases hi with hi | hi <;> simp [ConsoleBot.get_env_variable, he, hi]

/-- With a non-interactive stdin every `get_env_variable` call either exits
with status 1 or returns a value. -/
theorem gev_total (env inp : String → Option String) (v p : String)
    (hi : inp p = none ∨ inp p = some "") :
    ConsoleBot.get_env_variable env inp v p = .error 1 ∨
      ∃ s, ConsoleBot.get_env_variable env inp v p = .ok s := by
  by_cases hc : (env v).getD "" = ""
  · left
    rcases hi with hi | hi <;> simp [ConsoleBot.get_env_variable, hc, hi]
  · right
    exact ⟨(env v).getD "", by simp [ConsoleBot.get_env_variable, hc]⟩

/-- C5: run non-interactively (the prompts yield nothing or an empty
line), the CLI host exits with status 1 — a non-zero status — while still
resolving configuration, i.e. before reaching the line that constructs the
Slack and Supabase clients and the listener, whenever any one of the five
mandatory settings is absent from the environment. -/
theorem missing_mandatory_env_exits_nonzero (env inp : String → Option String)
    (hni : ∀ p, inp p = none ∨ inp p = some "")
    (hmiss : ∃ v ∈ ["SLACK_BOT_TOKEN", "SLACK_APP_TOKEN", "SUPABASE_URL",
        "SUPABASE_SERVICE_KEY", "TARGET_SLACK_USER_ID"], env v = none) :
    ConsoleBot.run_bot env inp = .exited 1 ∧ (1 : Nat) ≠ 0 := by
  refine ⟨?_, one_ne_zero⟩
  have hrc : ConsoleBot.resolve_config env inp = .error 1 := by
    rcases hmiss with ⟨v, hv, he⟩
    simp only [List.mem_cons, List.not_mem_nil, or_false] at hv
    rcases hv with rfl | rfl | rfl | rfl | rfl
    · simp [ConsoleBot.resolve_config, gev_of_missing env inp _ _ he (hni _)]
    · rcases gev_total env inp "SLACK_BOT_TOKEN" "Enter Slack Bot Token (xoxb-)"
          (hni _) with h1 | ⟨s1, h1⟩ <;>
        simp [ConsoleBot.resolve_config, h1, gev_of_missing env inp _ _ he (hni _)]
    · rcases gev_total env inp "SLACK_BOT_TOKEN" "Enter Slack Bot Token (xoxb-)"
          (hni _) with h1 | ⟨s1, h1⟩ <;>
      rcases gev_total env inp "SLACK_APP_TOKEN" "Enter Slack App Token (xapp-)"
          (hni _) with h2 | ⟨s2, h2⟩ <;>
        simp [ConsoleBot.resolve_config, h1, h2, gev_of_missing env inp _ _ he (hni _)]
    · rcases gev_total env inp "SLACK_BOT_TOKEN" "Enter Slack Bot Token (xoxb-)"
          (hni _) with h1 | ⟨s1, h1⟩ <;>
      rcases gev_total env inp "SLACK_APP_TOKEN" "Enter Slack App Token (xapp-)"
          (hni _) with h2 | ⟨s2, h2⟩ <;>
      rcases gev_total env inp "SUPABASE_URL" "Enter Supabase Project URL"
          (hni _) with h3 | ⟨s3, h3⟩ <;>
        simp [ConsoleBot.resolve_config, h1, h2, h3,
          gev_of_missing env inp _ _ he (hni _)]
    · rcases gev_total env inp "SLACK_BOT_TOKEN" "Enter Slack Bot Token (xoxb-)"
          (hni _) with h1 | ⟨s1, h1⟩ <;>
      rcases gev_total env inp "SLACK_APP_TOKEN" "Enter Slack App Token (xapp-)"
          (hni _) with h2 | ⟨s2, h2⟩ <;>
      rcases gev_total env inp "SUPABASE_URL" "Enter Supabase Project URL"
          (hni _) with h3 | ⟨s3, h3⟩ <;>
      rcases gev_total env inp "SUPABASE_SERVICE_KEY" "Enter Supabase Service Role Key"
          (hni _) with h4 | ⟨s4, h4⟩ <;>
        simp [ConsoleBot.resolve_config, h1, h2, h3, h4,
          gev_of_missing env inp _ _ he (hni _)]
  simp [ConsoleBot.run_bot, hrc]

/-- Witness for C5: with an empty environment and a closed stdin the CLI
host exits with status 1 before any client or listener is constructed. -/
theorem missing_mandatory_env_exits_nonzero_witness :
    ConsoleBot.run_bot (fun _ => none) (fun _ => none) = .exited 1 ∧ (1 : Nat) ≠ 0 :=
  missing_mandatory_env_exits_nonzero (fun _ => none) (fun _ => none)
    (fun _ => Or.inl rfl) ⟨"SLACK_BOT_TOKEN", by simp, rfl⟩

/-- C6: fed the same six raw input values (with `""` standing for "not
supplied" and the prompts of the CLI path left unanswered), the interactive
host's form submission and the CLI host's environment resolution produce
the same outcome: both succeed exactly when the five mandatory values are
non-empty, both produce the identical `RuntimeConfig`, and both default the
table name to the literal "slack_messages_for_sensay" when it is not
supplied. -/
theorem form_and_cli_config_equivalent (b a u k t n : String) :
    (App.env_var_form b a u k t n).toOption =
      (ConsoleBot.resolve_config (envOf b a u k t n) (fun _ => some "")).toOption := by
  by_cases hb : b = "" <;> by_cases ha : a = "" <;> by_cases hu : u = "" <;>
    by_cases hk : k = "" <;> by_cases ht : t = "" <;> by_cases hn : n = "" <;>
    simp [App.env_var_form, ConsoleBot.resolve_config, ConsoleBot.get_env_variable,
      envOf, hb, ha, hu, hk, ht, hn, Except.toOption]

/-- Every `writeAll` leaves the previously buffered entries in place and
appends the new ones in order. -/
theorem writeAll_buffer (ms : List String) :
    ∀ h : StreamlitLogHandler, (h.writeAll ms).buffer = h.buffer ++ ms := by
  induction ms with
  | nil => intro h; simp [StreamlitLogHandler.writeAll]
  | cons m ms ih =>
    intro h
    have hstep : h.writeAll (m :: ms) = (h.write m).writeAll ms := rfl
    rw [hstep, ih, StreamlitLogHandler.write]
    simp

/-- C7: after any sequence of entries is appended to the shared log
buffer, a `get_logs` snapshot contains every entry, in write order, none
lost, reordered or altered: the buffer is the old buffer followed by the
new entries, and the snapshot is their concatenation in that order. -/
theorem log_buffer_preserves_entries_in_order (h : StreamlitLogHandler)
    (ms : List String) :
    (h.writeAll ms).buffer = h.buffer ++ ms ∧
    (h.writeAll ms).get_logs = String.join (h.buffer ++ ms) := by
  refine ⟨writeAll_buffer ms h, ?_⟩
  rw [StreamlitLogHandler.get_logs, writeAll_buffer ms h]

/-- C8: the stop signal is advisory only. The background listener's entire
observable behaviour — logs, buffer writes, insert calls — is independent
of the value of the `stop_event` flag it is handed (the listener never
reads it), and the foreground reset action only mutates foreground state:
it sets the flag, clears the started/confirmed flags and writes one line to
the capture buffer, leaving the background thread handle untouched. -/
theorem stop_signal_advisory_only :
    (∀ (config : ConfigDict) (s1 s2 : Bool) (buf : StreamlitLogHandler)
        (store : InsertCall → StoreResponse) (events : List SlackEvent),
      App.start_slack_bot_listener config s1 buf store events =
        App.start_slack_bot_listener config s2 buf store events) ∧
    (∀ s : SessionState,
      (stop_bot s).bot_thread = s.bot_thread ∧
      (stop_bot s).stop_event = true ∧
      (stop_bot s).bot_started = false ∧
      (stop_bot s).env_vars_confirmed = false ∧
      (stop_bot s).streamlit_log_handler =
        s.streamlit_log_handler.write "UI Stop requested. Resetting configuration.\n") :=
  ⟨fun _ _ _ _ _ _ => rfl, fun _ => ⟨rfl, rfl, rfl, rfl, rfl⟩⟩
